import Mathlib

set_option maxHeartbeats 1000000
set_option maxRecDepth 4000

/-!
Shallow embedding of the quad-to-quad transformer (`src/lib.rs`).

Rust `f32` arithmetic is modelled as exact rational arithmetic (`ℚ`); the claims
about the numeric kernel all allow floating-point tolerance, and over `ℚ` the
corresponding statements are exact.  A Rust panic (from `try_inverse().unwrap()`)
is modelled by an `Option` result being `none`.
-/

/-- Rust `type Point2D = (f32, f32)`. -/
abbrev Point2D : Type := ℚ × ℚ

/-- Rust `pub type RectCorners = [Point2D; 4]`, clockwise:
left top, right top, right bottom, left bottom. -/
abbrev RectCorners : Type := Fin 4 → Point2D

/-- Array literal `[p0, p1, p2, p3]` of corners. -/
def mkQuad (p0 p1 p2 p3 : Point2D) : RectCorners := fun i =>
  match i.val with
  | 0 => p0
  | 1 => p1
  | 2 => p2
  | _ => p3

/-- Constant `DST_SIZE: f32 = 1.` from the source. -/
def DST_SIZE : ℚ := 1

/-- Constant `DEFAULT_DST_QUAD` from the source: the unit square. -/
def DEFAULT_DST_QUAD : RectCorners :=
  mkQuad (0, 0) (DST_SIZE, 0) (DST_SIZE, DST_SIZE) (0, DST_SIZE)

/-- Function `point_is_inside_quad` from the source.  With a destination quad
`[a, b, _c, d]` it tests `x >= a.0 - margin && x <= b.0 + margin &&
y >= a.1 - margin && y <= d.1 + margin`; without one it uses the default
`[0, DST_SIZE]` box, inflated by the margin.  Corner `_c` is unused. -/
def point_is_inside_quad (point : Point2D) (dst_quad : Option RectCorners) (margin : ℚ) :
    Bool :=
  let x := point.1
  let y := point.2
  match dst_quad with
  | some q =>
    let a := q 0
    let b := q 1
    let d := q 3
    decide (x ≥ a.1 - margin) && decide (x ≤ b.1 + margin) &&
      decide (y ≥ a.2 - margin) && decide (y ≤ d.2 + margin)
  | none =>
    decide (x ≥ 0 - margin) && decide (x ≤ DST_SIZE + margin) &&
      decide (y ≥ 0 - margin) && decide (y ≤ DST_SIZE + margin)

/-- Entries of an 8-vector in index order, used to model fixed-size nalgebra data. -/
def vec8 {α : Type} (a0 a1 a2 a3 a4 a5 a6 a7 : α) : Fin 8 → α := fun i =>
  match i.val with
  | 0 => a0
  | 1 => a1
  | 2 => a2
  | 3 => a3
  | 4 => a4
  | 5 => a5
  | 6 => a6
  | _ => a7

/-- Row `r1` from `build_transform`. -/
def r1 (src_quad dst_quad : RectCorners) : Fin 8 → ℚ :=
  vec8 (src_quad 0).1 (src_quad 0).2 1 0 0 0
    ((-(src_quad 0).1) * (dst_quad 0).1) ((-(src_quad 0).2) * (dst_quad 0).1)

/-- Row `r2` from `build_transform`. -/
def r2 (src_quad dst_quad : RectCorners) : Fin 8 → ℚ :=
  vec8 0 0 0 (src_quad 0).1 (src_quad 0).2 1
    ((-(src_quad 0).1) * (dst_quad 0).2) ((-(src_quad 0).2) * (dst_quad 0).2)

/-- Row `r3` from `build_transform`. -/
def r3 (src_quad dst_quad : RectCorners) : Fin 8 → ℚ :=
  vec8 (src_quad 1).1 (src_quad 1).2 1 0 0 0
    ((-(src_quad 1).1) * (dst_quad 1).1) ((-(src_quad 1).2) * (dst_quad 1).1)

/-- Row `r4` from `build_transform`. -/
def r4 (src_quad dst_quad : RectCorners) : Fin 8 → ℚ :=
  vec8 0 0 0 (src_quad 1).1 (src_quad 1).2 1
    ((-(src_quad 1).1) * (dst_quad 1).2) ((-(src_quad 1).2) * (dst_quad 1).2)

/-- Row `r5` from `build_transform`. -/
def r5 (src_quad dst_quad : RectCorners) : Fin 8 → ℚ :=
  vec8 (src_quad 2).1 (src_quad 2).2 1 0 0 0
    ((-(src_quad 2).1) * (dst_quad 2).1) ((-(src_quad 2).2) * (dst_quad 2).1)

/-- Row `r6` from `build_transform`. -/
def r6 (src_quad dst_quad : RectCorners) : Fin 8 → ℚ :=
  vec8 0 0 0 (src_quad 2).1 (src_quad 2).2 1
    ((-(src_quad 2).1) * (dst_quad 2).2) ((-(src_quad 2).2) * (dst_quad 2).2)

/-- Row `r7` from `build_transform`. -/
def r7 (src_quad dst_quad : RectCorners) : Fin 8 → ℚ :=
  vec8 (src_quad 3).1 (src_quad 3).2 1 0 0 0
    ((-(src_quad 3).1) * (dst_quad 3).1) ((-(src_quad 3).2) * (dst_quad 3).1)

/-- Row `r8` from `build_transform`. -/
def r8 (src_quad dst_quad : RectCorners) : Fin 8 → ℚ :=
  vec8 0 0 0 (src_quad 3).1 (src_quad 3).2 1
    ((-(src_quad 3).1) * (dst_quad 3).2) ((-(src_quad 3).2) * (dst_quad 3).2)

/-- Matrix `matrix_a` from `build_transform`.  nalgebra `SMatrix::from_iterator`
fills the matrix in column-major order, so the matrix built from the flattened
rows `r1 ++ ... ++ r8` has `r1 .. r8` as its columns: entry `(i, j)` is the
`i`-th component of row `r(j+1)`. -/
def matrix_a (src_quad dst_quad : RectCorners) : Matrix (Fin 8) (Fin 8) ℚ :=
  Matrix.of fun i j =>
    vec8 (r1 src_quad dst_quad) (r2 src_quad dst_quad) (r3 src_quad dst_quad)
      (r4 src_quad dst_quad) (r5 src_quad dst_quad) (r6 src_quad dst_quad)
      (r7 src_quad dst_quad) (r8 src_quad dst_quad) j i

/-- Row vector `matrix_b` from `build_transform`: the destination corner
coordinates flattened in order. -/
def matrix_b (dst_quad : RectCorners) : Fin 8 → ℚ :=
  vec8 (dst_quad 0).1 (dst_quad 0).2 (dst_quad 1).1 (dst_quad 1).2
    (dst_quad 2).1 (dst_quad 2).2 (dst_quad 3).1 (dst_quad 3).2

/-- Entry lookup in a list-of-rows working matrix (0 outside bounds). -/
def getEntry (rows : List (List ℚ)) (i j : Nat) : ℚ := (rows.getD i []).getD j 0

/-- Index of a row at or below `col` with a nonzero entry in column `col`. -/
def findPivot (rows : List (List ℚ)) (col : Nat) : Option Nat :=
  (List.range rows.length).find? fun r => decide (col ≤ r) && !(getEntry rows r col == 0)

/-- One Gauss–Jordan step: pivot in column `col`, normalize the pivot row and
clear the column from every other row.  Fails when no pivot is available. -/
def elimCol (rows : List (List ℚ)) (col : Nat) : Option (List (List ℚ)) :=
  match findPivot rows col with
  | none => none
  | some p =>
    let rows1 := (List.range rows.length).map fun k =>
      if k = col then rows.getD p [] else if k = p then rows.getD col [] else rows.getD k []
    let pv := getEntry rows1 col col
    let prow := (rows1.getD col []).map fun v => v / pv
    some ((List.range rows1.length).map fun k =>
      if k = col then prow
      else
        let factor := getEntry rows1 k col
        (rows1.getD k []).zipWith (fun a b => a - factor * b) prow)

/-- Full Gauss–Jordan elimination over the first `n` columns. -/
def gaussJordan (n : Nat) (rows : List (List ℚ)) : Option (List (List ℚ)) :=
  (List.range n).foldl (fun acc col => acc.bind fun rws => elimCol rws col) (some rows)

/-- Augmented matrix `[A ∣ I]` as a list of rows. -/
def toAug (A : Matrix (Fin 8) (Fin 8) ℚ) : List (List ℚ) :=
  (List.finRange 8).map fun i =>
    ((List.finRange 8).map fun j => A i j) ++
      (List.finRange 8).map fun j => if i = j then (1 : ℚ) else 0

/-- Boolean equality test for square rational matrices. -/
def matEqB {n : Nat} (A B : Matrix (Fin n) (Fin n) ℚ) : Bool :=
  (List.finRange n).all fun i => (List.finRange n).all fun j => A i j == B i j

/-- Inverse candidate: the right half of the eliminated augmented matrix. -/
def gaussInv (A : Matrix (Fin 8) (Fin 8) ℚ) : Option (Matrix (Fin 8) (Fin 8) ℚ) :=
  (gaussJordan 8 (toAug A)).map
    fun rws => Matrix.of fun i j : Fin 8 => getEntry rws i.val (8 + j.val)

/-- Model of nalgebra `try_inverse` (a library call in the source): exact
Gauss–Jordan elimination followed by a certification step, so that a returned
matrix is always a two-sided inverse and a singular input never returns `some`. -/
def try_inverse (A : Matrix (Fin 8) (Fin 8) ℚ) : Option (Matrix (Fin 8) (Fin 8) ℚ) :=
  match gaussInv A with
  | none => none
  | some B => if matEqB (A * B) 1 && matEqB (B * A) 1 then some B else none

/-- Call `Matrix3::new(c0, ..., c7, 1.)` from the source, row-major. -/
def matrix3_new (c : Fin 8 → ℚ) : Matrix (Fin 3) (Fin 3) ℚ :=
  Matrix.of fun i j =>
    match i.val, j.val with
    | 0, 0 => c 0
    | 0, 1 => c 1
    | 0, 2 => c 2
    | 1, 0 => c 3
    | 1, 1 => c 4
    | 1, 2 => c 5
    | 2, 0 => c 6
    | 2, 1 => c 7
    | _, _ => 1

/-- Function `build_transform` from the source.  The coefficient row vector is
`matrix_b * matrix_a⁻¹`.  A `none` result models the panic of
`matrix_a.try_inverse().unwrap()` on a singular coefficient matrix. -/
def build_transform (src_quad dst_quad : RectCorners) :
    Option (Matrix (Fin 3) (Fin 3) ℚ) :=
  (try_inverse (matrix_a src_quad dst_quad)).map fun inv =>
    matrix3_new (Matrix.vecMul (matrix_b dst_quad) inv)

/-- nalgebra `Matrix3::transform_point`: homogeneous multiplication followed by a
perspective divide, skipped when the normalizer is zero. -/
def transform_point (m : Matrix (Fin 3) (Fin 3) ℚ) (p : Point2D) : Point2D :=
  if m 2 0 * p.1 + m 2 1 * p.2 + m 2 2 ≠ 0 then
    ((m 0 0 * p.1 + m 0 1 * p.2 + m 0 2) / (m 2 0 * p.1 + m 2 1 * p.2 + m 2 2),
      (m 1 0 * p.1 + m 1 1 * p.2 + m 1 2) / (m 2 0 * p.1 + m 2 1 * p.2 + m 2 2))
  else
    (m 0 0 * p.1 + m 0 1 * p.2 + m 0 2, m 1 0 * p.1 + m 1 1 * p.2 + m 1 2)

/-- Error value for `QuadTransformer::transform` (the source uses
`anyhow!("No transform matrix")`, raised exactly when no matrix is cached). -/
inductive TransformError where
  | notReady
deriving DecidableEq

/-- State of `pub struct QuadTransformer`. -/
structure QuadTransformer where
  transform_matrix : Option (Matrix (Fin 3) (Fin 3) ℚ)
  ignore_outside_margin : Option ℚ
  dst_quad : Option RectCorners
deriving DecidableEq

/-- Constructor `QuadTransformer::new`.  The result is `none` when
`build_transform` panics (degenerate source quad); the two `warn!` calls are
observability side effects with no data flow and are not modelled. -/
def QuadTransformer.new (src_quad : Option RectCorners) (dst_quad : Option RectCorners)
    (ignore_outside_margin : Option ℚ) : Option QuadTransformer :=
  let useable_dst_quad : RectCorners :=
    match dst_quad with
    | some q => q
    | none => DEFAULT_DST_QUAD
  match src_quad with
  | none =>
    some { transform_matrix := none, ignore_outside_margin := ignore_outside_margin,
           dst_quad := dst_quad }
  | some quad =>
    (build_transform quad useable_dst_quad).map fun m =>
      { transform_matrix := some m, ignore_outside_margin := ignore_outside_margin,
        dst_quad := dst_quad }

/-- Method `QuadTransformer::set_new_quad`; `none` models the panic of the inner
`build_transform` call. -/
def QuadTransformer.set_new_quad (self : QuadTransformer) (src_quad : RectCorners)
    (dst_quad : Option RectCorners) : Option QuadTransformer :=
  let useable_dst_quad : RectCorners :=
    match dst_quad with
    | some q => q
    | none => DEFAULT_DST_QUAD
  (build_transform src_quad useable_dst_quad).map fun m =>
    { self with dst_quad := dst_quad, transform_matrix := some m }

/-- Method `QuadTransformer::transform`. -/
def QuadTransformer.transform (self : QuadTransformer) (point : Point2D) :
    Except TransformError Point2D :=
  match self.transform_matrix with
  | some matrix => Except.ok (transform_point matrix point)
  | none => Except.error TransformError.notReady

/-- Method `QuadTransformer::filter_points_inside`. -/
def QuadTransformer.filter_points_inside (self : QuadTransformer)
    (points : List Point2D) : List Point2D :=
  points.filter fun point =>
    match self.ignore_outside_margin with
    | some margin => point_is_inside_quad point self.dst_quad margin
    | none => true

/-- Method `QuadTransformer::is_ready`. -/
def QuadTransformer.is_ready (self : QuadTransformer) : Bool :=
  self.transform_matrix.isSome

/-- Twice the signed area of the triangle `A B C`; zero iff the points are
collinear (coincident points included). -/
def det3 (A B C : Point2D) : ℚ :=
  (B.1 - A.1) * (C.2 - A.2) - (B.2 - A.2) * (C.1 - A.1)

/-- Non-degeneracy of a quadrilateral in the sense of the specification: no
three of the four corners are collinear (which also rules out coincident
corners). -/
def NonDeg (q : RectCorners) : Prop :=
  det3 (q 0) (q 1) (q 2) ≠ 0 ∧ det3 (q 0) (q 1) (q 3) ≠ 0 ∧
    det3 (q 0) (q 2) (q 3) ≠ 0 ∧ det3 (q 1) (q 2) (q 3) ≠ 0

instance (q : RectCorners) : Decidable (NonDeg q) := by
  unfold NonDeg
  infer_instance

/-- Inside-quad predicate as described by the specification (a refinement
comparison definition written from the spec's words, not from the source): the
box extent is measured by Euclidean edge lengths, top edge for the width and
left edge for the height, taken origin-relative and inflated by the margin,
with inclusive comparisons. -/
def point_is_inside_quad_spec (point : Point2D) (q : RectCorners) (margin : ℚ) : Prop :=
  (point.1 : ℝ) ≥ 0 - (margin : ℝ) ∧
    (point.1 : ℝ) ≤
      Real.sqrt ((((q 1).1 - (q 0).1 : ℚ) : ℝ) ^ 2 + (((q 1).2 - (q 0).2 : ℚ) : ℝ) ^ 2) +
        (margin : ℝ) ∧
    (point.2 : ℝ) ≥ 0 - (margin : ℝ) ∧
    (point.2 : ℝ) ≤
      Real.sqrt ((((q 3).1 - (q 0).1 : ℚ) : ℝ) ^ 2 + (((q 3).2 - (q 0).2 : ℚ) : ℝ) ^ 2) +
        (margin : ℝ)

/-- Source quadrilateral of the simple worked example in the repository tests:
the unit square. -/
def test_src_quad : RectCorners := mkQuad (0, 0) (1, 0) (1, 1) (0, 1)

/-- Destination quadrilateral of the simple worked example in the repository
tests. -/
def test_dst_quad : RectCorners := mkQuad (1, 2) (1, 4) (3, 4) (3, 2)

/-- The transform matrix the solver produces for the worked example pair. -/
def test_matrix : Matrix (Fin 3) (Fin 3) ℚ := matrix3_new (vec8 0 2 1 2 0 2 0 0)

/-- The transform matrix the solver produces for the worked example pair with
the two quadrilaterals swapped. -/
def test_matrix_inv : Matrix (Fin 3) (Fin 3) ℚ :=
  matrix3_new (vec8 0 (1/2) (-1) (1/2) 0 (-1/2) 0 0)

/-! Access lemmas for the fixed-size helpers (all definitional). -/

@[simp] theorem vec8_zero {α : Type} (a0 a1 a2 a3 a4 a5 a6 a7 : α) :
    vec8 a0 a1 a2 a3 a4 a5 a6 a7 0 = a0 := rfl

@[simp] theorem vec8_one {α : Type} (a0 a1 a2 a3 a4 a5 a6 a7 : α) :
    vec8 a0 a1 a2 a3 a4 a5 a6 a7 1 = a1 := rfl

@[simp] theorem vec8_two {α : Type} (a0 a1 a2 a3 a4 a5 a6 a7 : α) :
    vec8 a0 a1 a2 a3 a4 a5 a6 a7 2 = a2 := rfl

@[simp] theorem vec8_three {α : Type} (a0 a1 a2 a3 a4 a5 a6 a7 : α) :
    vec8 a0 a1 a2 a3 a4 a5 a6 a7 3 = a3 := rfl

@[simp] theorem vec8_four {α : Type} (a0 a1 a2 a3 a4 a5 a6 a7 : α) :
    vec8 a0 a1 a2 a3 a4 a5 a6 a7 4 = a4 := rfl

@[simp] theorem vec8_five {α : Type} (a0 a1 a2 a3 a4 a5 a6 a7 : α) :
    vec8 a0 a1 a2 a3 a4 a5 a6 a7 5 = a5 := rfl

@[simp] theorem vec8_six {α : Type} (a0 a1 a2 a3 a4 a5 a6 a7 : α) :
    vec8 a0 a1 a2 a3 a4 a5 a6 a7 6 = a6 := rfl

@[simp] theorem vec8_seven {α : Type} (a0 a1 a2 a3 a4 a5 a6 a7 : α) :
    vec8 a0 a1 a2 a3 a4 a5 a6 a7 7 = a7 := rfl

@[simp] theorem vec8_mk_zero {α : Type} (a0 a1 a2 a3 a4 a5 a6 a7 : α) (h : (0 : Nat) < 8) :
    vec8 a0 a1 a2 a3 a4 a5 a6 a7 ⟨0, h⟩ = a0 := rfl

@[simp] theorem vec8_mk_one {α : Type} (a0 a1 a2 a3 a4 a5 a6 a7 : α) (h : (1 : Nat) < 8) :
    vec8 a0 a1 a2 a3 a4 a5 a6 a7 ⟨1, h⟩ = a1 := rfl

@[simp] theorem vec8_mk_two {α : Type} (a0 a1 a2 a3 a4 a5 a6 a7 : α) (h : (2 : Nat) < 8) :
    vec8 a0 a1 a2 a3 a4 a5 a6 a7 ⟨2, h⟩ = a2 := rfl

@[simp] theorem vec8_mk_three {α : Type} (a0 a1 a2 a3 a4 a5 a6 a7 : α) (h : (3 : Nat) < 8) :
    vec8 a0 a1 a2 a3 a4 a5 a6 a7 ⟨3, h⟩ = a3 := rfl

@[simp] theorem vec8_mk_four {α : Type} (a0 a1 a2 a3 a4 a5 a6 a7 : α) (h : (4 : Nat) < 8) :
    vec8 a0 a1 a2 a3 a4 a5 a6 a7 ⟨4, h⟩ = a4 := rfl

@[simp] theorem vec8_mk_five {α : Type} (a0 a1 a2 a3 a4 a5 a6 a7 : α) (h : (5 : Nat) < 8) :
    vec8 a0 a1 a2 a3 a4 a5 a6 a7 ⟨5, h⟩ = a5 := rfl

@[simp] theorem vec8_mk_six {α : Type} (a0 a1 a2 a3 a4 a5 a6 a7 : α) (h : (6 : Nat) < 8) :
    vec8 a0 a1 a2 a3 a4 a5 a6 a7 ⟨6, h⟩ = a6 := rfl

@[simp] theorem vec8_mk_seven {α : Type} (a0 a1 a2 a3 a4 a5 a6 a7 : α) (h : (7 : Nat) < 8) :
    vec8 a0 a1 a2 a3 a4 a5 a6 a7 ⟨7, h⟩ = a7 := rfl

@[simp] theorem mkQuad_zero (p0 p1 p2 p3 : Point2D) : mkQuad p0 p1 p2 p3 0 = p0 := rfl

@[simp] theorem mkQuad_one (p0 p1 p2 p3 : Point2D) : mkQuad p0 p1 p2 p3 1 = p1 := rfl

@[simp] theorem mkQuad_two (p0 p1 p2 p3 : Point2D) : mkQuad p0 p1 p2 p3 2 = p2 := rfl

@[simp] theorem mkQuad_three (p0 p1 p2 p3 : Point2D) : mkQuad p0 p1 p2 p3 3 = p3 := rfl

@[simp] theorem matrix3_new_00 (c : Fin 8 → ℚ) : matrix3_new c 0 0 = c 0 := rfl

@[simp] theorem matrix3_new_01 (c : Fin 8 → ℚ) : matrix3_new c 0 1 = c 1 := rfl

@[simp] theorem matrix3_new_02 (c : Fin 8 → ℚ) : matrix3_new c 0 2 = c 2 := rfl

@[simp] theorem matrix3_new_10 (c : Fin 8 → ℚ) : matrix3_new c 1 0 = c 3 := rfl

@[simp] theorem matrix3_new_11 (c : Fin 8 → ℚ) : matrix3_new c 1 1 = c 4 := rfl

@[simp] theorem matrix3_new_12 (c : Fin 8 → ℚ) : matrix3_new c 1 2 = c 5 := rfl

@[simp] theorem matrix3_new_20 (c : Fin 8 → ℚ) : matrix3_new c 2 0 = c 6 := rfl

@[simp] theorem matrix3_new_21 (c : Fin 8 → ℚ) : matrix3_new c 2 1 = c 7 := rfl

@[simp] theorem matrix3_new_22 (c : Fin 8 → ℚ) : matrix3_new c 2 2 = 1 := rfl

/-! Properties of the certified inverse. -/

theorem matEqB_eq {n : Nat} {A B : Matrix (Fin n) (Fin n) ℚ} (h : matEqB A B = true) :
    A = B := by
  ext i j
  have h1 := List.all_eq_true.mp h i (List.mem_finRange i)
  have h2 := List.all_eq_true.mp h1 j (List.mem_finRange j)
  exact beq_iff_eq.mp h2

theorem try_inverse_some {A B : Matrix (Fin 8) (Fin 8) ℚ} (h : try_inverse A = some B) :
    A * B = 1 ∧ B * A = 1 := by
  unfold try_inverse at h
  split at h
  · exact Option.noConfusion h
  · rename_i B0 heq
    split at h
    · rename_i hc
      rw [Bool.and_eq_true] at hc
      obtain ⟨h1, h2⟩ := hc
      injection h with h
      subst h
      exact ⟨matEqB_eq h1, matEqB_eq h2⟩
    · exact Option.noConfusion h

theorem build_transform_eq {src_quad dst_quad : RectCorners}
    {M : Matrix (Fin 3) (Fin 3) ℚ} (h : build_transform src_quad dst_quad = some M) :
    ∃ inv, try_inverse (matrix_a src_quad dst_quad) = some inv ∧
      M = matrix3_new (Matrix.vecMul (matrix_b dst_quad) inv) := by
  unfold build_transform at h
  obtain ⟨inv, h1, h2⟩ := Option.map_eq_some'.mp h
  exact ⟨inv, h1, h2.symm⟩

theorem coeffs_vecMul_eq {src_quad dst_quad : RectCorners}
    {inv : Matrix (Fin 8) (Fin 8) ℚ} (h : try_inverse (matrix_a src_quad dst_quad) = some inv) :
    Matrix.vecMul (Matrix.vecMul (matrix_b dst_quad) inv) (matrix_a src_quad dst_quad) =
      matrix_b dst_quad := by
  obtain ⟨h1, h2⟩ := try_inverse_some h
  rw [Matrix.vecMul_vecMul, h2, Matrix.vecMul_one]

theorem m22_eq {src_quad dst_quad : RectCorners} {M : Matrix (Fin 3) (Fin 3) ℚ}
    (h : build_transform src_quad dst_quad = some M) : M 2 2 = 1 := by
  obtain ⟨inv, hinv, hM⟩ := build_transform_eq h
  rw [hM, matrix3_new_22]

theorem corner_eq0 {src_quad dst_quad : RectCorners} {M : Matrix (Fin 3) (Fin 3) ℚ}
    (h : build_transform src_quad dst_quad = some M) :
    M 0 0 * (src_quad 0).1 + M 0 1 * (src_quad 0).2 + M 0 2 =
      (dst_quad 0).1 * (M 2 0 * (src_quad 0).1 + M 2 1 * (src_quad 0).2 + 1) ∧
    M 1 0 * (src_quad 0).1 + M 1 1 * (src_quad 0).2 + M 1 2 =
      (dst_quad 0).2 * (M 2 0 * (src_quad 0).1 + M 2 1 * (src_quad 0).2 + 1) := by
  obtain ⟨inv, hinv, hM⟩ := build_transform_eq h
  have key := coeffs_vecMul_eq hinv
  rw [funext_iff] at key
  set c := Matrix.vecMul (matrix_b dst_quad) inv with hc
  have k0 := key 0
  have k1 := key 1
  simp only [Matrix.vecMul, Matrix.dotProduct, Fin.sum_univ_eight, matrix_a, Matrix.of_apply,
    vec8_zero, vec8_one, vec8_two, vec8_three, vec8_four, vec8_five, vec8_six, vec8_seven,
    r1, r2, r3, r4, r5, r6, r7, r8, matrix_b] at k0 k1
  subst hM
  constructor
  · simp only [matrix3_new_00, matrix3_new_01, matrix3_new_02, matrix3_new_20, matrix3_new_21]
    linear_combination k0
  · simp only [matrix3_new_10, matrix3_new_11, matrix3_new_12, matrix3_new_20, matrix3_new_21]
    linear_combination k1

theorem corner_eq1 {src_quad dst_quad : RectCorners} {M : Matrix (Fin 3) (Fin 3) ℚ}
    (h : build_transform src_quad dst_quad = some M) :
    M 0 0 * (src_quad 1).1 + M 0 1 * (src_quad 1).2 + M 0 2 =
      (dst_quad 1).1 * (M 2 0 * (src_quad 1).1 + M 2 1 * (src_quad 1).2 + 1) ∧
    M 1 0 * (src_quad 1).1 + M 1 1 * (src_quad 1).2 + M 1 2 =
      (dst_quad 1).2 * (M 2 0 * (src_quad 1).1 + M 2 1 * (src_quad 1).2 + 1) := by
  obtain ⟨inv, hinv, hM⟩ := build_transform_eq h
  have key := coeffs_vecMul_eq hinv
  rw [funext_iff] at key
  set c := Matrix.vecMul (matrix_b dst_quad) inv with hc
  have k0 := key 2
  have k1 := key 3
  simp only [Matrix.vecMul, Matrix.dotProduct, Fin.sum_univ_eight, matrix_a, Matrix.of_apply,
    vec8_zero, vec8_one, vec8_two, vec8_three, vec8_four, vec8_five, vec8_six, vec8_seven,
    r1, r2, r3, r4, r5, r6, r7, r8, matrix_b] at k0 k1
  subst hM
  constructor
  · simp only [matrix3_new_00, matrix3_new_01, matrix3_new_02, matrix3_new_20, matrix3_new_21]
    linear_combination k0
  · simp only [matrix3_new_10, matrix3_new_11, matrix3_new_12, matrix3_new_20, matrix3_new_21]
    linear_combination k1

theorem corner_eq2 {src_quad dst_quad : RectCorners} {M : Matrix (Fin 3) (Fin 3) ℚ}
    (h : build_transform src_quad dst_quad = some M) :
    M 0 0 * (src_quad 2).1 + M 0 1 * (src_quad 2).2 + M 0 2 =
      (dst_quad 2).1 * (M 2 0 * (src_quad 2).1 + M 2 1 * (src_quad 2).2 + 1) ∧
    M 1 0 * (src_quad 2).1 + M 1 1 * (src_quad 2).2 + M 1 2 =
      (dst_quad 2).2 * (M 2 0 * (src_quad 2).1 + M 2 1 * (src_quad 2).2 + 1) := by
  obtain ⟨inv, hinv, hM⟩ := build_transform_eq h
  have key := coeffs_vecMul_eq hinv
  rw [funext_iff] at key
  set c := Matrix.vecMul (matrix_b dst_quad) inv with hc
  have k0 := key 4
  have k1 := key 5
  simp only [Matrix.vecMul, Matrix.dotProduct, Fin.sum_univ_eight, matrix_a, Matrix.of_apply,
    vec8_zero, vec8_one, vec8_two, vec8_three, vec8_four, vec8_five, vec8_six, vec8_seven,
    r1, r2, r3, r4, r5, r6, r7, r8, matrix_b] at k0 k1
  subst hM
  constructor
  · simp only [matrix3_new_00, matrix3_new_01, matrix3_new_02, matrix3_new_20, matrix3_new_21]
    linear_combination k0
  · simp only [matrix3_new_10, matrix3_new_11, matrix3_new_12, matrix3_new_20, matrix3_new_21]
    linear_combination k1

theorem corner_eq3 {src_quad dst_quad : RectCorners} {M : Matrix (Fin 3) (Fin 3) ℚ}
    (h : build_transform src_quad dst_quad = some M) :
    M 0 0 * (src_quad 3).1 + M 0 1 * (src_quad 3).2 + M 0 2 =
      (dst_quad 3).1 * (M 2 0 * (src_quad 3).1 + M 2 1 * (src_quad 3).2 + 1) ∧
    M 1 0 * (src_quad 3).1 + M 1 1 * (src_quad 3).2 + M 1 2 =
      (dst_quad 3).2 * (M 2 0 * (src_quad 3).1 + M 2 1 * (src_quad 3).2 + 1) := by
  obtain ⟨inv, hinv, hM⟩ := build_transform_eq h
  have key := coeffs_vecMul_eq hinv
  rw [funext_iff] at key
  set c := Matrix.vecMul (matrix_b dst_quad) inv with hc
  have k0 := key 6
  have k1 := key 7
  simp only [Matrix.vecMul, Matrix.dotProduct, Fin.sum_univ_eight, matrix_a, Matrix.of_apply,
    vec8_zero, vec8_one, vec8_two, vec8_three, vec8_four, vec8_five, vec8_six, vec8_seven,
    r1, r2, r3, r4, r5, r6, r7, r8, matrix_b] at k0 k1
  subst hM
  constructor
  · simp only [matrix3_new_00, matrix3_new_01, matrix3_new_02, matrix3_new_20, matrix3_new_21]
    linear_combination k0
  · simp only [matrix3_new_10, matrix3_new_11, matrix3_new_12, matrix3_new_20, matrix3_new_21]
    linear_combination k1

/-! Collinearity determinants and the geometric core of the corner
correspondence argument. -/

theorem det3_ne_swap23 {A B C : Point2D} (h : det3 A B C ≠ 0) : det3 A C B ≠ 0 := by
  intro h0
  apply h
  unfold det3 at h0 ⊢
  linarith

theorem det3_ne_swap12 {A B C : Point2D} (h : det3 A B C ≠ 0) : det3 B A C ≠ 0 := by
  intro h0
  apply h
  unfold det3 at h0 ⊢
  linarith

theorem det3_ne_rot2 {A B C : Point2D} (h : det3 A B C ≠ 0) : det3 C A B ≠ 0 := by
  intro h0
  apply h
  unfold det3 at h0 ⊢
  linarith

/-- Algebraic core, two annihilated corners: if the perspective solution sends
two source corners to the zero vector, and two further corners have nonzero
denominators, then the images of those two corners coincide, contradicting
non-collinearity of the destination corners. -/
theorem two_zero_core
    (a b c d e f g h : ℚ)
    (xt yt xs ys xk yk xl yl Xt Yt Xk Yk Xl Yl : ℚ)
    (hut : a * xt + b * yt + c = 0) (hvt : d * xt + e * yt + f = 0)
    (hnt : g * xt + h * yt + 1 = 0)
    (hus : a * xs + b * ys + c = 0) (hvs : d * xs + e * ys + f = 0)
    (hns : g * xs + h * ys + 1 = 0)
    (hXk : a * xk + b * yk + c = Xk * (g * xk + h * yk + 1))
    (hYk : d * xk + e * yk + f = Yk * (g * xk + h * yk + 1))
    (hXl : a * xl + b * yl + c = Xl * (g * xl + h * yl + 1))
    (hYl : d * xl + e * yl + f = Yl * (g * xl + h * yl + 1))
    (hptsk : det3 (xt, yt) (xs, ys) (xk, yk) ≠ 0)
    (hptsl : det3 (xt, yt) (xs, ys) (xl, yl) ≠ 0)
    (hq : det3 (Xt, Yt) (Xk, Yk) (Xl, Yl) ≠ 0) :
    False := by
  by_cases hnk : g * xk + h * yk + 1 = 0
  · apply hptsk
    unfold det3
    linear_combination (xs * yk - xk * ys) * hnt + (xk * yt - xt * yk) * hns +
      (xt * ys - xs * yt) * hnk
  by_cases hnl : g * xl + h * yl + 1 = 0
  · apply hptsl
    unfold det3
    linear_combination (xs * yl - xl * ys) * hnt + (xl * yt - xt * yl) * hns +
      (xt * ys - xs * yt) * hnl
  have Iu : det3 (xt, yt) (xs, ys) (xk, yk) * (a * xl + b * yl + c) =
      det3 (xl, yl) (xs, ys) (xk, yk) * (a * xt + b * yt + c) +
      det3 (xt, yt) (xl, yl) (xk, yk) * (a * xs + b * ys + c) +
      det3 (xt, yt) (xs, ys) (xl, yl) * (a * xk + b * yk + c) := by
    unfold det3
    ring
  have Iv : det3 (xt, yt) (xs, ys) (xk, yk) * (d * xl + e * yl + f) =
      det3 (xl, yl) (xs, ys) (xk, yk) * (d * xt + e * yt + f) +
      det3 (xt, yt) (xl, yl) (xk, yk) * (d * xs + e * ys + f) +
      det3 (xt, yt) (xs, ys) (xl, yl) * (d * xk + e * yk + f) := by
    unfold det3
    ring
  have In : det3 (xt, yt) (xs, ys) (xk, yk) * (g * xl + h * yl + 1) =
      det3 (xl, yl) (xs, ys) (xk, yk) * (g * xt + h * yt + 1) +
      det3 (xt, yt) (xl, yl) (xk, yk) * (g * xs + h * ys + 1) +
      det3 (xt, yt) (xs, ys) (xl, yl) * (g * xk + h * yk + 1) := by
    unfold det3
    ring
  rw [hut, hus, hXl, hXk] at Iu
  rw [hvt, hvs, hYl, hYk] at Iv
  rw [hnt, hns] at In
  have keyX : det3 (xt, yt) (xs, ys) (xk, yk) * ((g * xl + h * yl + 1) * (Xl - Xk)) = 0 := by
    linear_combination Iu - Xk * In
  have keyY : det3 (xt, yt) (xs, ys) (xk, yk) * ((g * xl + h * yl + 1) * (Yl - Yk)) = 0 := by
    linear_combination Iv - Yk * In
  have hXeq : Xl = Xk := by
    rcases mul_eq_zero.mp keyX with h0 | h0
    · exact absurd h0 hptsk
    rcases mul_eq_zero.mp h0 with h1 | h1
    · exact absurd h1 hnl
    · linarith
  have hYeq : Yl = Yk := by
    rcases mul_eq_zero.mp keyY with h0 | h0
    · exact absurd h0 hptsk
    rcases mul_eq_zero.mp h0 with h1 | h1
    · exact absurd h1 hnl
    · linarith
  apply hq
  subst hXeq
  subst hYeq
  unfold det3
  ring

/-- Algebraic core, one annihilated corner: if the perspective solution sends
one source corner to the zero vector while both quadrilaterals have no three
collinear corners, a contradiction follows. -/
theorem one_zero_core
    (a b c d e f g h : ℚ)
    (xt yt xs ys xk yk xl yl Xt Yt Xs Ys Xk Yk Xl Yl : ℚ)
    (hXt : a * xt + b * yt + c = Xt * (g * xt + h * yt + 1))
    (hYt : d * xt + e * yt + f = Yt * (g * xt + h * yt + 1))
    (hXs : a * xs + b * ys + c = Xs * (g * xs + h * ys + 1))
    (hYs : d * xs + e * ys + f = Ys * (g * xs + h * ys + 1))
    (hXk : a * xk + b * yk + c = Xk * (g * xk + h * yk + 1))
    (hYk : d * xk + e * yk + f = Yk * (g * xk + h * yk + 1))
    (hXl : a * xl + b * yl + c = Xl * (g * xl + h * yl + 1))
    (hYl : d * xl + e * yl + f = Yl * (g * xl + h * yl + 1))
    (hnt : g * xt + h * yt + 1 = 0)
    (hp_tsk : det3 (xt, yt) (xs, ys) (xk, yk) ≠ 0)
    (hp_tsl : det3 (xt, yt) (xs, ys) (xl, yl) ≠ 0)
    (hp_tkl : det3 (xt, yt) (xk, yk) (xl, yl) ≠ 0)
    (hq_skl : det3 (Xs, Ys) (Xk, Yk) (Xl, Yl) ≠ 0)
    (hq_tkl : det3 (Xt, Yt) (Xk, Yk) (Xl, Yl) ≠ 0)
    (hq_tsl : det3 (Xt, Yt) (Xs, Ys) (Xl, Yl) ≠ 0)
    (hq_tsk : det3 (Xt, Yt) (Xs, Ys) (Xk, Yk) ≠ 0) :
    False := by
  have hut : a * xt + b * yt + c = 0 := by rw [hXt, hnt]; ring
  have hvt : d * xt + e * yt + f = 0 := by rw [hYt, hnt]; ring
  have hdM : a * (e * 1 - f * h) - b * (d * 1 - f * g) + c * (d * h - e * g) = 0 := by
    linear_combination (d * h - e * g) * hut + (b * g - a * h) * hvt + (a * e - b * d) * hnt
  by_cases hns : g * xs + h * ys + 1 = 0
  · have hus : a * xs + b * ys + c = 0 := by rw [hXs, hns]; ring
    have hvs : d * xs + e * ys + f = 0 := by rw [hYs, hns]; ring
    exact two_zero_core a b c d e f g h xt yt xs ys xk yk xl yl Xt Yt Xk Yk Xl Yl
      hut hvt hnt hus hvs hns hXk hYk hXl hYl hp_tsk hp_tsl hq_tkl
  by_cases hnk : g * xk + h * yk + 1 = 0
  · have huk : a * xk + b * yk + c = 0 := by rw [hXk, hnk]; ring
    have hvk : d * xk + e * yk + f = 0 := by rw [hYk, hnk]; ring
    exact two_zero_core a b c d e f g h xt yt xk yk xs ys xl yl Xt Yt Xs Ys Xl Yl
      hut hvt hnt huk hvk hnk hXs hYs hXl hYl (det3_ne_swap23 hp_tsk) hp_tkl hq_tsl
  by_cases hnl : g * xl + h * yl + 1 = 0
  · have hul : a * xl + b * yl + c = 0 := by rw [hXl, hnl]; ring
    have hvl : d * xl + e * yl + f = 0 := by rw [hYl, hnl]; ring
    exact two_zero_core a b c d e f g h xt yt xl yl xs ys xk yk Xt Yt Xs Ys Xk Yk
      hut hvt hnt hul hvl hnl hXs hYs hXk hYk (det3_ne_swap23 hp_tsl)
      (det3_ne_swap23 hp_tkl) hq_tsk
  have hD : det3 (Xs, Ys) (Xk, Yk) (Xl, Yl) *
      ((g * xs + h * ys + 1) * ((g * xk + h * yk + 1) * (g * xl + h * yl + 1))) = 0 := by
    unfold det3
    linear_combination
      ((xk - xs) * (yl - ys) - (yk - ys) * (xl - xs)) * hdM +
      (-((g*xk+h*yk+1) * (g*xl+h*yl+1) * (Yk - Yl))) * hXs +
      ((g*xk+h*yk+1) * (g*xl+h*yl+1) * (Xk - Xl)) * hYs +
      ((g*xl+h*yl+1) * ((d*xs+e*ys+f) - (g*xs+h*ys+1) * Yl)) * hXk +
      (-((g*xl+h*yl+1) * ((a*xs+b*ys+c) - (g*xs+h*ys+1) * Xl))) * hYk +
      (-((d*xs+e*ys+f) * (g*xk+h*yk+1) - (g*xs+h*ys+1) * (d*xk+e*yk+f))) * hXl +
      ((a*xs+b*ys+c) * (g*xk+h*yk+1) - (g*xs+h*ys+1) * (a*xk+b*yk+c)) * hYl
  rcases mul_eq_zero.mp hD with h0 | h0
  · exact hq_skl h0
  rcases mul_eq_zero.mp h0 with h1 | h1
  · exact hns h1
  rcases mul_eq_zero.mp h1 with h2 | h2
  · exact hnk h2
  · exact hnl h2

theorem denom_ne_zero {src_quad dst_quad : RectCorners} {M : Matrix (Fin 3) (Fin 3) ℚ}
    (h : build_transform src_quad dst_quad = some M)
    (hs : NonDeg src_quad) (hd : NonDeg dst_quad) (t : Fin 4) :
    M 2 0 * (src_quad t).1 + M 2 1 * (src_quad t).2 + 1 ≠ 0 := by
  obtain ⟨hs012, hs013, hs023, hs123⟩ := hs
  obtain ⟨hd012, hd013, hd023, hd123⟩ := hd
  have e0 := corner_eq0 h
  have e1 := corner_eq1 h
  have e2 := corner_eq2 h
  have e3 := corner_eq3 h
  intro hn
  fin_cases t
  · exact one_zero_core (M 0 0) (M 0 1) (M 0 2) (M 1 0) (M 1 1) (M 1 2) (M 2 0) (M 2 1)
      (src_quad 0).1 (src_quad 0).2 (src_quad 1).1 (src_quad 1).2
      (src_quad 2).1 (src_quad 2).2 (src_quad 3).1 (src_quad 3).2
      (dst_quad 0).1 (dst_quad 0).2 (dst_quad 1).1 (dst_quad 1).2
      (dst_quad 2).1 (dst_quad 2).2 (dst_quad 3).1 (dst_quad 3).2
      e0.1 e0.2 e1.1 e1.2 e2.1 e2.2 e3.1 e3.2 hn
      hs012 hs013 hs023 hd123 hd023 hd013 hd012
  · exact one_zero_core (M 0 0) (M 0 1) (M 0 2) (M 1 0) (M 1 1) (M 1 2) (M 2 0) (M 2 1)
      (src_quad 1).1 (src_quad 1).2 (src_quad 0).1 (src_quad 0).2
      (src_quad 2).1 (src_quad 2).2 (src_quad 3).1 (src_quad 3).2
      (dst_quad 1).1 (dst_quad 1).2 (dst_quad 0).1 (dst_quad 0).2
      (dst_quad 2).1 (dst_quad 2).2 (dst_quad 3).1 (dst_quad 3).2
      e1.1 e1.2 e0.1 e0.2 e2.1 e2.2 e3.1 e3.2 hn
      (det3_ne_swap12 hs012) (det3_ne_swap12 hs013) hs123
      hd023 hd123 (det3_ne_swap12 hd013) (det3_ne_swap12 hd012)
  · exact one_zero_core (M 0 0) (M 0 1) (M 0 2) (M 1 0) (M 1 1) (M 1 2) (M 2 0) (M 2 1)
      (src_quad 2).1 (src_quad 2).2 (src_quad 0).1 (src_quad 0).2
      (src_quad 1).1 (src_quad 1).2 (src_quad 3).1 (src_quad 3).2
      (dst_quad 2).1 (dst_quad 2).2 (dst_quad 0).1 (dst_quad 0).2
      (dst_quad 1).1 (dst_quad 1).2 (dst_quad 3).1 (dst_quad 3).2
      e2.1 e2.2 e0.1 e0.2 e1.1 e1.2 e3.1 e3.2 hn
      (det3_ne_rot2 hs012) (det3_ne_swap12 hs023) (det3_ne_swap12 hs123)
      hd013 (det3_ne_swap12 hd123) (det3_ne_swap12 hd023) (det3_ne_rot2 hd012)
  · exact one_zero_core (M 0 0) (M 0 1) (M 0 2) (M 1 0) (M 1 1) (M 1 2) (M 2 0) (M 2 1)
      (src_quad 3).1 (src_quad 3).2 (src_quad 0).1 (src_quad 0).2
      (src_quad 1).1 (src_quad 1).2 (src_quad 2).1 (src_quad 2).2
      (dst_quad 3).1 (dst_quad 3).2 (dst_quad 0).1 (dst_quad 0).2
      (dst_quad 1).1 (dst_quad 1).2 (dst_quad 2).1 (dst_quad 2).2
      e3.1 e3.2 e0.1 e0.2 e1.1 e1.2 e2.1 e2.2 hn
      (det3_ne_rot2 hs013) (det3_ne_rot2 hs023) (det3_ne_rot2 hs123)
      hd012 (det3_ne_rot2 hd123) (det3_ne_rot2 hd023) (det3_ne_rot2 hd013)

/-- General corner correspondence: whenever the solver returns a matrix for a
pair of quadrilaterals with no three collinear corners on either side, the
transform maps each source corner exactly onto the matching destination
corner. -/
theorem corner_correspondence {src_quad dst_quad : RectCorners}
    {M : Matrix (Fin 3) (Fin 3) ℚ} (h : build_transform src_quad dst_quad = some M)
    (hs : NonDeg src_quad) (hd : NonDeg dst_quad) (t : Fin 4) :
    transform_point M (src_quad t) = dst_quad t := by
  have hm22 := m22_eq h
  have hn := denom_ne_zero h hs hd t
  have hx : M 0 0 * (src_quad t).1 + M 0 1 * (src_quad t).2 + M 0 2 =
      (dst_quad t).1 * (M 2 0 * (src_quad t).1 + M 2 1 * (src_quad t).2 + 1) ∧
      M 1 0 * (src_quad t).1 + M 1 1 * (src_quad t).2 + M 1 2 =
      (dst_quad t).2 * (M 2 0 * (src_quad t).1 + M 2 1 * (src_quad t).2 + 1) := by
    fin_cases t
    · exact corner_eq0 h
    · exact corner_eq1 h
    · exact corner_eq2 h
    · exact corner_eq3 h
  unfold transform_point
  rw [hm22]
  rw [if_pos hn]
  have hp : ((dst_quad t).1, (dst_quad t).2) = dst_quad t := rfl
  rw [← hp]
  congr 1
  · rw [hx.1]
    field_simp
  · rw [hx.2]
    field_simp

/-! Claim theorems. -/

/-- C1 (confirmed): for every non-degenerate source and destination
quadrilateral pair, applying the matrix returned by the solver
(`build_transform`) to the `i`-th source corner yields the `i`-th destination
corner, exactly in rational arithmetic (hence within floating-point
tolerance), for all `i` in `0..4`. -/
theorem C1_corner_correspondence (src_quad dst_quad : RectCorners)
    (M : Matrix (Fin 3) (Fin 3) ℚ) (hs : NonDeg src_quad) (hd : NonDeg dst_quad)
    (h : build_transform src_quad dst_quad = some M) (i : Fin 4) :
    transform_point M (src_quad i) = dst_quad i :=
  corner_correspondence h hs hd i

/-- C9 (confirmed): for every non-degenerate pair `(src, dst)`, applying the
matrix obtained by solving with swapped arguments to each corner of `dst`
recovers the corresponding corner of `src`, exactly in rational arithmetic. -/
theorem C9_round_trip (src_quad dst_quad : RectCorners)
    (M : Matrix (Fin 3) (Fin 3) ℚ) (hs : NonDeg src_quad) (hd : NonDeg dst_quad)
    (h : build_transform dst_quad src_quad = some M) (i : Fin 4) :
    transform_point M (dst_quad i) = src_quad i :=
  corner_correspondence h hd hs i

/-- C2 amended (the claim as corrected): when the four source corners lie on a
common line, `build_transform` panics, modelled by a `none` result, rather than
returning a matrix or a `DegenerateQuadError` value (no such error value exists
in the code); in particular it never silently produces a matrix. -/
theorem C2_amended_degenerate_panics (src_quad dst_quad : RectCorners) (la lb lc : ℚ)
    (hab : ¬(la = 0 ∧ lb = 0))
    (hline : ∀ k : Fin 4, la * (src_quad k).1 + lb * (src_quad k).2 + lc = 0) :
    build_transform src_quad dst_quad = none := by
  unfold build_transform
  suffices hti : try_inverse (matrix_a src_quad dst_quad) = none by rw [hti]; rfl
  by_contra hne
  obtain ⟨B, hB⟩ := Option.ne_none_iff_exists'.mp hne
  obtain ⟨h1, h2⟩ := try_inverse_some hB
  have hw : Matrix.vecMul (vec8 la lb lc 0 0 0 0 0) (matrix_a src_quad dst_quad) = 0 := by
    funext j
    fin_cases j
    · simp only [Matrix.vecMul, Matrix.dotProduct, Fin.sum_univ_eight, matrix_a,
        Matrix.of_apply, vec8_zero, vec8_one, vec8_two, vec8_three, vec8_four, vec8_five,
        vec8_six, vec8_seven, vec8_mk_zero, vec8_mk_one, vec8_mk_two, vec8_mk_three,
        vec8_mk_four, vec8_mk_five, vec8_mk_six, vec8_mk_seven,
        r1, r2, r3, r4, r5, r6, r7, r8, Pi.zero_apply]
      linear_combination hline 0
    · simp only [Matrix.vecMul, Matrix.dotProduct, Fin.sum_univ_eight, matrix_a,
        Matrix.of_apply, vec8_zero, vec8_one, vec8_two, vec8_three, vec8_four, vec8_five,
        vec8_six, vec8_seven, vec8_mk_zero, vec8_mk_one, vec8_mk_two, vec8_mk_three,
        vec8_mk_four, vec8_mk_five, vec8_mk_six, vec8_mk_seven,
        r1, r2, r3, r4, r5, r6, r7, r8, Pi.zero_apply]
      ring
    · simp only [Matrix.vecMul, Matrix.dotProduct, Fin.sum_univ_eight, matrix_a,
        Matrix.of_apply, vec8_zero, vec8_one, vec8_two, vec8_three, vec8_four, vec8_five,
        vec8_six, vec8_seven, vec8_mk_zero, vec8_mk_one, vec8_mk_two, vec8_mk_three,
        vec8_mk_four, vec8_mk_five, vec8_mk_six, vec8_mk_seven,
        r1, r2, r3, r4, r5, r6, r7, r8, Pi.zero_apply]
      linear_combination hline 1
    · simp only [Matrix.vecMul, Matrix.dotProduct, Fin.sum_univ_eight, matrix_a,
        Matrix.of_apply, vec8_zero, vec8_one, vec8_two, vec8_three, vec8_four, vec8_five,
        vec8_six, vec8_seven, vec8_mk_zero, vec8_mk_one, vec8_mk_two, vec8_mk_three,
        vec8_mk_four, vec8_mk_five, vec8_mk_six, vec8_mk_seven,
        r1, r2, r3, r4, r5, r6, r7, r8, Pi.zero_apply]
      ring
    · simp only [Matrix.vecMul, Matrix.dotProduct, Fin.sum_univ_eight, matrix_a,
        Matrix.of_apply, vec8_zero, vec8_one, vec8_two, vec8_three, vec8_four, vec8_five,
        vec8_six, vec8_seven, vec8_mk_zero, vec8_mk_one, vec8_mk_two, vec8_mk_three,
        vec8_mk_four, vec8_mk_five, vec8_mk_six, vec8_mk_seven,
        r1, r2, r3, r4, r5, r6, r7, r8, Pi.zero_apply]
      linear_combination hline 2
    · simp only [Matrix.vecMul, Matrix.dotProduct, Fin.sum_univ_eight, matrix_a,
        Matrix.of_apply, vec8_zero, vec8_one, vec8_two, vec8_three, vec8_four, vec8_five,
        vec8_six, vec8_seven, vec8_mk_zero, vec8_mk_one, vec8_mk_two, vec8_mk_three,
        vec8_mk_four, vec8_mk_five, vec8_mk_six, vec8_mk_seven,
        r1, r2, r3, r4, r5, r6, r7, r8, Pi.zero_apply]
      ring
    · simp only [Matrix.vecMul, Matrix.dotProduct, Fin.sum_univ_eight, matrix_a,
        Matrix.of_apply, vec8_zero, vec8_one, vec8_two, vec8_three, vec8_four, vec8_five,
        vec8_six, vec8_seven, vec8_mk_zero, vec8_mk_one, vec8_mk_two, vec8_mk_three,
        vec8_mk_four, vec8_mk_five, vec8_mk_six, vec8_mk_seven,
        r1, r2, r3, r4, r5, r6, r7, r8, Pi.zero_apply]
      linear_combination hline 3
    · simp only [Matrix.vecMul, Matrix.dotProduct, Fin.sum_univ_eight, matrix_a,
        Matrix.of_apply, vec8_zero, vec8_one, vec8_two, vec8_three, vec8_four, vec8_five,
        vec8_six, vec8_seven, vec8_mk_zero, vec8_mk_one, vec8_mk_two, vec8_mk_three,
        vec8_mk_four, vec8_mk_five, vec8_mk_six, vec8_mk_seven,
        r1, r2, r3, r4, r5, r6, r7, r8, Pi.zero_apply]
      ring
  have hzero : vec8 la lb lc 0 0 0 0 0 = (0 : Fin 8 → ℚ) := by
    calc vec8 la lb lc 0 0 0 0 0
        = Matrix.vecMul (vec8 la lb lc 0 0 0 0 0) 1 := by rw [Matrix.vecMul_one]
      _ = Matrix.vecMul (vec8 la lb lc 0 0 0 0 0) (matrix_a src_quad dst_quad * B) := by
          rw [h1]
      _ = Matrix.vecMul (Matrix.vecMul (vec8 la lb lc 0 0 0 0 0)
            (matrix_a src_quad dst_quad)) B := by rw [Matrix.vecMul_vecMul]
      _ = Matrix.vecMul 0 B := by rw [hw]
      _ = 0 := Matrix.zero_vecMul B
  apply hab
  constructor
  · have h0 := congrFun hzero 0
    simpa using h0
  · have h0 := congrFun hzero 1
    simpa using h0

/-- C3 amended (the claim as corrected): construction without a source
quadrilateral yields a session with no cached matrix; but when a source
quadrilateral is supplied and the solve fails, `new` panics (modelled by
`none`) instead of constructing a not-ready session, and `set_new_quad`
likewise panics instead of returning a `DegenerateQuadError`. -/
theorem C3_amended_construction :
    (∀ (dq : Option RectCorners) (m : Option ℚ),
        ∃ t, QuadTransformer.new none dq m = some t ∧ t.is_ready = false) ∧
    (∀ (sq : RectCorners) (dq : Option RectCorners) (m : Option ℚ),
        build_transform sq (dq.getD DEFAULT_DST_QUAD) = none →
        QuadTransformer.new (some sq) dq m = none) ∧
    (∀ (t : QuadTransformer) (sq : RectCorners) (dq : Option RectCorners),
        build_transform sq (dq.getD DEFAULT_DST_QUAD) = none →
        t.set_new_quad sq dq = none) := by
  refine ⟨?_, ?_, ?_⟩
  · intro dq m
    exact ⟨_, rfl, rfl⟩
  · intro sq dq m hb
    cases dq with
    | none =>
      show (build_transform sq DEFAULT_DST_QUAD).map _ = none
      rw [show build_transform sq DEFAULT_DST_QUAD = none from hb]
      rfl
    | some q =>
      show (build_transform sq q).map _ = none
      rw [show build_transform sq q = none from hb]
      rfl
  · intro t sq dq hb
    cases dq with
    | none =>
      show (build_transform sq DEFAULT_DST_QUAD).map _ = none
      rw [show build_transform sq DEFAULT_DST_QUAD = none from hb]
      rfl
    | some q =>
      show (build_transform sq q).map _ = none
      rw [show build_transform sq q = none from hb]
      rfl

/-- C4 amended (the claim as corrected): with a destination quadrilateral
present, the predicate is an axis-aligned box test on raw corner coordinates,
`x` between the top-left corner x and the top-right corner x and `y` between
the top-left corner y and the bottom-left corner y, inflated by the margin,
with inclusive comparisons; no Euclidean edge length is involved. -/
theorem C4_amended_box_semantics (p : Point2D) (q : RectCorners) (m : ℚ) :
    point_is_inside_quad p (some q) m = true ↔
      ((q 0).1 - m ≤ p.1 ∧ p.1 ≤ (q 1).1 + m ∧
        (q 0).2 - m ≤ p.2 ∧ p.2 ≤ (q 3).2 + m) := by
  unfold point_is_inside_quad
  simp [and_assoc, ge_iff_le]

/-- C5 (confirmed): with no destination quadrilateral configured the predicate
accepts exactly the points with `x ∈ [-m, 1 + m]` and `y ∈ [-m, 1 + m]`,
boundaries included. -/
theorem C5_default_square (x y m : ℚ) :
    point_is_inside_quad (x, y) none m = true ↔
      (-m ≤ x ∧ x ≤ 1 + m ∧ -m ≤ y ∧ y ≤ 1 + m) := by
  unfold point_is_inside_quad DST_SIZE
  simp [and_assoc, ge_iff_le, zero_sub]

/-- C6 (confirmed): `filter_points_inside` returns the input unchanged when no
margin is configured, and otherwise returns exactly the order-preserving
subsequence of points accepted by the inside-quad predicate with the session's
cached destination quadrilateral and margin; it is a pure function producing a
new (possibly empty) list. -/
theorem C6_filter_semantics (t : QuadTransformer) (ps : List Point2D) :
    (t.ignore_outside_margin = none → t.filter_points_inside ps = ps) ∧
    (∀ m, t.ignore_outside_margin = some m →
        t.filter_points_inside ps =
          ps.filter fun p => point_is_inside_quad p t.dst_quad m) ∧
    List.Sublist (t.filter_points_inside ps) ps := by
  unfold QuadTransformer.filter_points_inside
  refine ⟨?_, ?_, List.filter_sublist ps⟩
  · intro h
    rw [h]
    simp
  · intro m h
    rw [h]

/-- C7 (confirmed): `transform` fails with the not-ready error exactly when no
matrix is cached and otherwise returns the point transformer's result;
`is_ready` is true exactly when a matrix is cached; a session constructed with
no source quadrilateral is not ready and its `transform` always fails; after a
successful `set_new_quad` the session is ready and `transform` succeeds. -/
theorem C7_readiness :
    (∀ (t : QuadTransformer) (p : Point2D),
        t.transform p = Except.error TransformError.notReady ↔
          t.transform_matrix = none) ∧
    (∀ (t : QuadTransformer) (p : Point2D) (M : Matrix (Fin 3) (Fin 3) ℚ),
        t.transform_matrix = some M → t.transform p = Except.ok (transform_point M p)) ∧
    (∀ t : QuadTransformer, t.is_ready = true ↔ ∃ M, t.transform_matrix = some M) ∧
    (∀ (dq : Option RectCorners) (m : Option ℚ) (t : QuadTransformer),
        QuadTransformer.new none dq m = some t →
          t.is_ready = false ∧
            ∀ p, t.transform p = Except.error TransformError.notReady) ∧
    (∀ (t t' : QuadTransformer) (sq : RectCorners) (dq : Option RectCorners),
        t.set_new_quad sq dq = some t' →
          t'.is_ready = true ∧ ∀ p, ∃ p', t'.transform p = Except.ok p') := by
  refine ⟨?_, ?_, ?_, ?_, ?_⟩
  · intro t p
    obtain ⟨tm, im, dq⟩ := t
    cases tm <;> simp [QuadTransformer.transform]
  · intro t p M h
    unfold QuadTransformer.transform
    rw [h]
  · intro t
    unfold QuadTransformer.is_ready
    rw [Option.isSome_iff_exists]
  · intro dq m t h
    injection h with h
    subst h
    exact ⟨rfl, fun p => rfl⟩
  · intro t t' sq dq h
    unfold QuadTransformer.set_new_quad at h
    obtain ⟨M, h1, h2⟩ := Option.map_eq_some'.mp h
    subst h2
    exact ⟨rfl, fun p => ⟨transform_point M p, rfl⟩⟩

/-- C10 (confirmed): the inside-quad predicate never reads the bottom-right
corner (index 2) of the destination quadrilateral, so two quadrilaterals equal
at corners 0, 1 and 3 give identical predicate results, and
`filter_points_inside` output never depends on the bottom-right corner. -/
theorem C10_predicate_ignores_corner2 :
    (∀ (p : Point2D) (m : ℚ) (q q' : RectCorners),
        q' 0 = q 0 → q' 1 = q 1 → q' 3 = q 3 →
        point_is_inside_quad p (some q') m = point_is_inside_quad p (some q) m) ∧
    (∀ (tm : Option (Matrix (Fin 3) (Fin 3) ℚ)) (im : Option ℚ) (q q' : RectCorners)
        (ps : List Point2D),
        q' 0 = q 0 → q' 1 = q 1 → q' 3 = q 3 →
        QuadTransformer.filter_points_inside ⟨tm, im, some q'⟩ ps =
          QuadTransformer.filter_points_inside ⟨tm, im, some q⟩ ps) := by
  have hpred : ∀ (p : Point2D) (m : ℚ) (q q' : RectCorners),
      q' 0 = q 0 → q' 1 = q 1 → q' 3 = q 3 →
      point_is_inside_quad p (some q') m = point_is_inside_quad p (some q) m := by
    intro p m q q' h0 h1 h3
    show (decide (p.1 ≥ (q' 0).1 - m) && decide (p.1 ≤ (q' 1).1 + m) &&
        decide (p.2 ≥ (q' 0).2 - m) && decide (p.2 ≤ (q' 3).2 + m)) =
      (decide (p.1 ≥ (q 0).1 - m) && decide (p.1 ≤ (q 1).1 + m) &&
        decide (p.2 ≥ (q 0).2 - m) && decide (p.2 ≤ (q 3).2 + m))
    rw [h0, h1, h3]
  refine ⟨hpred, ?_⟩
  intro tm im q q' ps h0 h1 h3
  unfold QuadTransformer.filter_points_inside
  apply List.filter_congr
  intro p hp
  cases im with
  | none => rfl
  | some m => exact hpred p m q q' h0 h1 h3

section

attribute [local semireducible] Rat.mul Rat.add Rat.sub Rat.inv

/-- C8 (confirmed): for the unit-square source quadrilateral and destination
`[(1,2), (1,4), (3,4), (3,2)]`, building the transform and applying it to
`(0.5, 0.5)` yields exactly `(2, 3)`. -/
theorem C8_concrete_example :
    (build_transform test_src_quad test_dst_quad).map
      (fun m => transform_point m (1/2, 1/2)) = some (2, 3) := by
  decide

/-- C2 counterexample: on the concrete degenerate (collinear) source
quadrilateral `[(0,0), (1,1), (2,2), (3,3)]` the solve does not return a
`DegenerateQuadError` value: it panics inside `try_inverse().unwrap()`
(modelled by the `none` result), terminating abnormally, contrary to the
claim. -/
theorem C2_counterexample :
    build_transform (mkQuad (0, 0) (1, 1) (2, 2) (3, 3)) DEFAULT_DST_QUAD = none := by
  decide

/-- Witness for the amended C2 on a concrete collinear quadrilateral. -/
theorem C2_amended_witness :
    ¬((0 : ℚ) = 0 ∧ (1 : ℚ) = 0) ∧
    (∀ k : Fin 4, (0 : ℚ) * ((mkQuad (0, 0) (1, 0) (2, 0) (3, 0) : RectCorners) k).1 +
        1 * ((mkQuad (0, 0) (1, 0) (2, 0) (3, 0) : RectCorners) k).2 + 0 = 0) ∧
    build_transform (mkQuad (0, 0) (1, 0) (2, 0) (3, 0)) DEFAULT_DST_QUAD = none :=
  ⟨by decide, by decide,
    C2_amended_degenerate_panics (mkQuad (0, 0) (1, 0) (2, 0) (3, 0)) DEFAULT_DST_QUAD
      0 1 0 (by decide) (by decide)⟩

/-- C3 counterexample: constructing a session from the concrete degenerate
source quadrilateral with all four corners at the origin does not produce a
not-ready session: `new` panics (modelled by the `none` result), contrary to
the claim that construction never fails and swallows the solve failure. -/
theorem C3_counterexample :
    QuadTransformer.new (some (mkQuad (0, 0) (0, 0) (0, 0) (0, 0))) none none = none := by
  decide

/-- Witness for the amended C3 at concrete inputs. -/
theorem C3_amended_witness :
    (∃ t, QuadTransformer.new none none none = some t ∧ t.is_ready = false) ∧
    (build_transform (mkQuad (0, 0) (1, 1) (2, 2) (0, 0))
        ((none : Option RectCorners).getD DEFAULT_DST_QUAD) = none ∧
      QuadTransformer.new (some (mkQuad (0, 0) (1, 1) (2, 2) (0, 0))) none none = none) ∧
    (build_transform (mkQuad (0, 0) (1, 1) (2, 2) (0, 0))
        ((none : Option RectCorners).getD DEFAULT_DST_QUAD) = none ∧
      QuadTransformer.set_new_quad ⟨none, none, none⟩
        (mkQuad (0, 0) (1, 1) (2, 2) (0, 0)) none = none) := by
  have hb : build_transform (mkQuad (0, 0) (1, 1) (2, 2) (0, 0))
      ((none : Option RectCorners).getD DEFAULT_DST_QUAD) = none := by decide
  exact ⟨C3_amended_construction.1 none none,
    ⟨hb, C3_amended_construction.2.1 _ none none hb⟩,
    ⟨hb, C3_amended_construction.2.2 ⟨none, none, none⟩ _ none hb⟩⟩

/-- C4 counterexample: for the destination quadrilateral
`[(0,0), (3,4), (99,99), (0,1)]`, margin `0` and the point `(4, 1/2)`, the
code's predicate rejects the point (its `x` exceeds the top-right corner's
x-coordinate 3), while the spec's Euclidean-extent reading accepts it (the top
edge has Euclidean length 5 and the left edge length 1). -/
theorem C4_counterexample :
    point_is_inside_quad (4, 1/2) (some (mkQuad (0, 0) (3, 4) (99, 99) (0, 1))) 0 = false ∧
    point_is_inside_quad_spec (4, 1/2) (mkQuad (0, 0) (3, 4) (99, 99) (0, 1)) 0 := by
  constructor
  · decide
  · unfold point_is_inside_quad_spec
    simp only [mkQuad_zero, mkQuad_one, mkQuad_three]
    have h5 : Real.sqrt ((((3 : ℚ) - 0 : ℚ) : ℝ) ^ 2 + (((4 : ℚ) - 0 : ℚ) : ℝ) ^ 2) = 5 := by
      rw [show ((((3 : ℚ) - 0 : ℚ) : ℝ) ^ 2 + (((4 : ℚ) - 0 : ℚ) : ℝ) ^ 2) = (5 : ℝ) ^ 2 by
        norm_num]
      exact Real.sqrt_sq (by norm_num)
    have h1 : Real.sqrt ((((0 : ℚ) - 0 : ℚ) : ℝ) ^ 2 + (((1 : ℚ) - 0 : ℚ) : ℝ) ^ 2) = 1 := by
      rw [show ((((0 : ℚ) - 0 : ℚ) : ℝ) ^ 2 + (((1 : ℚ) - 0 : ℚ) : ℝ) ^ 2) = (1 : ℝ) ^ 2 by
        norm_num]
      exact Real.sqrt_sq (by norm_num)
    refine ⟨by norm_num, ?_, by norm_num, ?_⟩
    · rw [h5]
      norm_num
    · rw [h1]
      norm_num

/-- Witness for C1 at the worked example pair. -/
theorem C1_corner_correspondence_witness :
    NonDeg test_src_quad ∧ NonDeg test_dst_quad ∧
      build_transform test_src_quad test_dst_quad = some test_matrix ∧
      ∀ i : Fin 4, transform_point test_matrix (test_src_quad i) = test_dst_quad i := by
  have hb : build_transform test_src_quad test_dst_quad = some test_matrix := by decide
  exact ⟨by decide, by decide, hb,
    fun i => C1_corner_correspondence test_src_quad test_dst_quad test_matrix
      (by decide) (by decide) hb i⟩

/-- Witness for C9 at the worked example pair with the quadrilaterals
swapped. -/
theorem C9_round_trip_witness :
    NonDeg test_src_quad ∧ NonDeg test_dst_quad ∧
      build_transform test_dst_quad test_src_quad = some test_matrix_inv ∧
      ∀ i : Fin 4, transform_point test_matrix_inv (test_dst_quad i) = test_src_quad i := by
  have hb : build_transform test_dst_quad test_src_quad = some test_matrix_inv := by decide
  exact ⟨by decide, by decide, hb,
    fun i => C9_round_trip test_src_quad test_dst_quad test_matrix_inv
      (by decide) (by decide) hb i⟩

/-- Witness for C6 on concrete sessions and point lists, in both margin
configurations. -/
theorem C6_filter_semantics_witness :
    ((⟨none, none, none⟩ : QuadTransformer).ignore_outside_margin = none ∧
      QuadTransformer.filter_points_inside ⟨none, none, none⟩ [(0, 0), (5, 5)] =
        [(0, 0), (5, 5)]) ∧
    ((⟨none, some (1/4), none⟩ : QuadTransformer).ignore_outside_margin = some (1/4) ∧
      QuadTransformer.filter_points_inside ⟨none, some (1/4), none⟩
          [(0, 0), (5, 5), (1, 1)] =
        List.filter (fun p => point_is_inside_quad p none (1/4))
          [(0, 0), (5, 5), (1, 1)]) :=
  ⟨⟨rfl, (C6_filter_semantics ⟨none, none, none⟩ [(0, 0), (5, 5)]).1 rfl⟩,
    ⟨rfl, (C6_filter_semantics ⟨none, some (1/4), none⟩ [(0, 0), (5, 5), (1, 1)]).2.1
      (1/4) rfl⟩⟩

/-- Witness for C7 on concrete sessions. -/
theorem C7_readiness_witness :
    (QuadTransformer.transform ⟨none, none, none⟩ (0, 0) =
        Except.error TransformError.notReady ↔
      (⟨none, none, none⟩ : QuadTransformer).transform_matrix = none) ∧
    ((⟨some test_matrix, none, none⟩ : QuadTransformer).transform_matrix =
        some test_matrix ∧
      QuadTransformer.transform ⟨some test_matrix, none, none⟩ (0, 0) =
        Except.ok (transform_point test_matrix (0, 0))) ∧
    ((⟨some test_matrix, none, none⟩ : QuadTransformer).is_ready = true ↔
      ∃ M, (⟨some test_matrix, none, none⟩ : QuadTransformer).transform_matrix = some M) ∧
    (QuadTransformer.new none none none = some ⟨none, none, none⟩ ∧
      ((⟨none, none, none⟩ : QuadTransformer).is_ready = false ∧
        ∀ p, QuadTransformer.transform ⟨none, none, none⟩ p =
          Except.error TransformError.notReady)) ∧
    (QuadTransformer.set_new_quad ⟨none, none, none⟩ test_src_quad (some test_dst_quad) =
        some ⟨some test_matrix, none, some test_dst_quad⟩ ∧
      ((⟨some test_matrix, none, some test_dst_quad⟩ : QuadTransformer).is_ready = true ∧
        ∀ p, ∃ p', QuadTransformer.transform ⟨some test_matrix, none, some test_dst_quad⟩ p =
          Except.ok p')) := by
  have hset : QuadTransformer.set_new_quad ⟨none, none, none⟩ test_src_quad
      (some test_dst_quad) = some ⟨some test_matrix, none, some test_dst_quad⟩ := by decide
  exact ⟨C7_readiness.1 ⟨none, none, none⟩ (0, 0),
    ⟨rfl, C7_readiness.2.1 ⟨some test_matrix, none, none⟩ (0, 0) test_matrix rfl⟩,
    C7_readiness.2.2.1 ⟨some test_matrix, none, none⟩,
    ⟨rfl, C7_readiness.2.2.2.1 none none ⟨none, none, none⟩ rfl⟩,
    ⟨hset, C7_readiness.2.2.2.2 ⟨none, none, none⟩ ⟨some test_matrix, none, some test_dst_quad⟩
      test_src_quad (some test_dst_quad) hset⟩⟩

/-- Witness for C10 on two concrete quadrilaterals differing only in the
bottom-right corner. -/
theorem C10_witness :
    ((mkQuad (0, 0) (1, 0) (7, 7) (0, 1) : RectCorners) 0 =
        (mkQuad (0, 0) (1, 0) (1, 1) (0, 1) : RectCorners) 0) ∧
    ((mkQuad (0, 0) (1, 0) (7, 7) (0, 1) : RectCorners) 1 =
        (mkQuad (0, 0) (1, 0) (1, 1) (0, 1) : RectCorners) 1) ∧
    ((mkQuad (0, 0) (1, 0) (7, 7) (0, 1) : RectCorners) 3 =
        (mkQuad (0, 0) (1, 0) (1, 1) (0, 1) : RectCorners) 3) ∧
    point_is_inside_quad (1/2, 1/2) (some (mkQuad (0, 0) (1, 0) (7, 7) (0, 1))) 0 =
      point_is_inside_quad (1/2, 1/2) (some (mkQuad (0, 0) (1, 0) (1, 1) (0, 1))) 0 ∧
    QuadTransformer.filter_points_inside
        ⟨none, some 0, some (mkQuad (0, 0) (1, 0) (7, 7) (0, 1))⟩ [(1/2, 1/2), (9, 9)] =
      QuadTransformer.filter_points_inside
        ⟨none, some 0, some (mkQuad (0, 0) (1, 0) (1, 1) (0, 1))⟩ [(1/2, 1/2), (9, 9)] :=
  ⟨rfl, rfl, rfl,
    C10_predicate_ignores_corner2.1 (1/2, 1/2) 0 (mkQuad (0, 0) (1, 0) (1, 1) (0, 1))
      (mkQuad (0, 0) (1, 0) (7, 7) (0, 1)) rfl rfl rfl,
    C10_predicate_ignores_corner2.2 none (some 0) (mkQuad (0, 0) (1, 0) (1, 1) (0, 1))
      (mkQuad (0, 0) (1, 0) (7, 7) (0, 1)) [(1/2, 1/2), (9, 9)] rfl rfl rfl⟩

end
